import Mathlib

/-!
Verification of the XTC crypto-Twitter dashboard against its specification.

The repository source under scrutiny consists of the web-client code
(src/static/app.js, src/frontend/src/...). The Python backend (sentiment
scorer, collector, coin/trend extractor, alert engine, API handlers) is not
part of the available source tree; where a property concerns the backend, the
relevant component is modelled from the specification text, and each such
definition is marked `Modelled from the spec:` in its doc comment.

Numeric sentiment scores are embedded as rationals; JavaScript `Math.floor`
on possibly-negative integers is embedded as `Int.fdiv`.
-/

namespace XTC

/-! ## Sentiment classification (src/frontend/src/components/Summary.js, lines 96-101)

The Summary component maps a numeric sentiment value to a label by the fixed
threshold policy: `crypto.sentiment >= 0.05 ? 'Bullish' :
crypto.sentiment <= -0.05 ? 'Bearish' : 'Neutral'`. -/

/-- Embedding of the threshold classification in Summary.js: a numeric score
is labelled Bullish when at least 0.05, Bearish when at most -0.05, and
Neutral otherwise. -/
def trendClassification (s : ℚ) : String :=
  if s ≥ 5 / 100 then "Bullish"
  else if s ≤ -(5 / 100) then "Bearish"
  else "Neutral"

/-! ## Sentiment Scorer (backend, not under src/) -/

/-- Modelled from the spec: part of the backend Sentiment Scorer of section 4.1
(the VADER-based Python scorer is not under src/). Bullish lexicon words. -/
def bullishLexicon : List String :=
  ["moon", "bullish", "pump", "buy", "up", "gain", "rally"]

/-- Modelled from the spec: part of the backend Sentiment Scorer of section 4.1.
Bearish lexicon words. -/
def bearishLexicon : List String :=
  ["crash", "crashing", "bearish", "dump", "sell", "down", "loss"]

/-- Modelled from the spec: a single word's polarity contribution, +1 for a
bullish-lexicon word, -1 for a bearish-lexicon word, 0 otherwise. -/
def wordPolarity (w : String) : Int :=
  if w ∈ bullishLexicon then 1 else if w ∈ bearishLexicon then -1 else 0

/-- Splitting a character list into space-separated words, accumulating the
current word's characters in reverse. -/
def splitWordsAux : List Char → List Char → List String
  | [], acc => if acc.isEmpty then [] else [String.mk acc.reverse]
  | c :: cs, acc =>
    if c = ' ' then
      if acc.isEmpty then splitWordsAux cs []
      else String.mk acc.reverse :: splitWordsAux cs []
    else splitWordsAux cs (c :: acc)

/-- The space-separated words of a text (empty fragments dropped), used both
by the modelled scorer and by the modelled coin-mention detector. -/
def wordsOf (text : String) : List String :=
  splitWordsAux text.data []

/-- Modelled from the spec: the backend Sentiment Scorer of section 4.1, which
is not under src/. It is a pure function of the text returning a polarity
score in [-1, 1]: the mean word polarity of the text's words; a text with no
words (in particular the empty text) scores 0. -/
def sentimentScore (text : String) : ℚ :=
  let ws := wordsOf text
  if ws.length = 0 then 0
  else ((ws.map wordPolarity).sum : ℚ) / (ws.length : ℚ)

/-- Modelled from the spec: the categorical label attached by the backend
scorer, applying the section 4.1 threshold policy to the numeric score. -/
def sentimentLabel (text : String) : String :=
  if sentimentScore text ≥ 5 / 100 then "bullish"
  else if sentimentScore text ≤ -(5 / 100) then "bearish"
  else "neutral"

/-- Each word's polarity lies in [-1, 1]. -/
lemma wordPolarity_bounds (w : String) :
    -1 ≤ wordPolarity w ∧ wordPolarity w ≤ 1 := by
  unfold wordPolarity
  split <;> [skip; split] <;> omega

/-- The polarity sum of a word list is bounded by its length in absolute
value. -/
lemma polaritySum_bounds (ws : List String) :
    -(ws.length : Int) ≤ (ws.map wordPolarity).sum ∧
      (ws.map wordPolarity).sum ≤ (ws.length : Int) := by
  induction ws with
  | nil => simp
  | cons w ws ih =>
    have hw := wordPolarity_bounds w
    simp only [List.map_cons, List.sum_cons, List.length_cons]
    push_cast
    omega

/-- The modelled score is always within [-1, 1]. -/
lemma sentimentScore_bounds (text : String) :
    -1 ≤ sentimentScore text ∧ sentimentScore text ≤ 1 := by
  unfold sentimentScore
  set ws := wordsOf text with hws
  by_cases h : ws.length = 0
  · simp [h]
  · have hlen : 0 < (ws.length : ℚ) := by
      have : 0 < ws.length := Nat.pos_of_ne_zero h
      exact_mod_cast this
    have hb := polaritySum_bounds ws
    have hle : ((ws.map wordPolarity).sum : ℚ) ≤ (ws.length : ℚ) := by
      exact_mod_cast hb.2
    have hge : -((ws.length : ℚ)) ≤ ((ws.map wordPolarity).sum : ℚ) := by
      exact_mod_cast hb.1
    simp only [h, if_false]
    constructor
    · rw [le_div_iff₀ hlen]
      linarith
    · rw [div_le_one hlen]
      exact hle

/-! ## Data model (section 3 of the spec) -/

/-- A scraped post as served by GET /api/tweets and rendered by the client
(fields as read in src/static/app.js renderTweets). The sentiment fields are
attached by the scorer before persistence. -/
structure Post where
  id : Nat
  user_name : String
  user_handle : String
  text : String
  timestamp : Nat
  likes : Nat
  retweets : Nat
deriving DecidableEq, Repr

/-- A post as persisted by the Collector: the raw post together with its
synchronously attached sentiment. -/
structure StoredPost where
  post : Post
  sentiment_label : String
  sentiment_score : ℚ
deriving DecidableEq, Repr

/-- A per-coin mention tally over a window (section 3: derived, ephemeral). -/
structure CoinTally where
  symbol : String
  mentions : Nat
  sentiment : ℚ
deriving DecidableEq, Repr

/-- An alert record (section 3): type tag, title, description, importance
ordinal, timestamp, is-read flag. -/
structure Alert where
  id : Nat
  alert_type : String
  title : String
  description : String
  importance : Nat
  timestamp : Nat
  is_read : Bool
deriving DecidableEq, Repr

/-! ## Coin/Trend Extractor (backend, not under src/) -/

/-- Modelled from the spec: the mention detector of the backend Coin/Trend
Extractor (section 4.2), not under src/. A post mentions a coin when the
coin's symbol occurs as a word of the post text. -/
def mentionsCoin (p : Post) (sym : String) : Bool :=
  decide (sym ∈ wordsOf p.text)

/-- Modelled from the spec: the backend Coin/Trend Extractor of section 4.2,
not under src/. Given the reference coin list and the posts of a window, it
returns, per coin, the count of posts mentioning it and their mean sentiment
score; coins with zero mentions in the window are omitted. -/
def extractTallies (coins : List String) (posts : List Post) : List CoinTally :=
  coins.filterMap (fun sym =>
    let ps := posts.filter (fun p => mentionsCoin p sym)
    if ps.length = 0 then none
    else some ⟨sym, ps.length,
      ((ps.map (fun p => sentimentScore p.text)).sum) / (ps.length : ℚ)⟩)

/-- Modelled from the spec: the trending ranking order of section 4.2 — higher
mention count first, ties broken alphabetically by symbol. -/
def trendRank (a b : CoinTally) : Prop :=
  b.mentions < a.mentions ∨ (a.mentions = b.mentions ∧ a.symbol ≤ b.symbol)

instance : DecidableRel trendRank := fun a b => by
  unfold trendRank; infer_instance

instance : IsTotal CoinTally trendRank where
  total a b := by
    unfold trendRank
    rcases Nat.lt_trichotomy a.mentions b.mentions with h | h | h
    · exact Or.inr (Or.inl h)
    · rcases le_total a.symbol b.symbol with hs | hs
      · exact Or.inl (Or.inr ⟨h, hs⟩)
      · exact Or.inr (Or.inr ⟨h.symm, hs⟩)
    · exact Or.inl (Or.inl h)

instance : IsTrans CoinTally trendRank where
  trans a b c hab hbc := by
    unfold trendRank at *
    rcases hab with h1 | ⟨h1, hs1⟩ <;> rcases hbc with h2 | ⟨h2, hs2⟩
    · exact Or.inl (by omega)
    · exact Or.inl (by omega)
    · exact Or.inl (by omega)
    · exact Or.inr ⟨by omega, le_trans hs1 hs2⟩

/-- Modelled from the spec: the top-N trending list — the window's tallies
sorted by the section 4.2 ranking order, truncated to N entries. -/
def topTrending (n : Nat) (coins : List String) (posts : List Post) :
    List CoinTally :=
  (List.insertionSort trendRank (extractTallies coins posts)).take n

/-! ## Alert Engine (backend, not under src/) -/

/-- Modelled from the spec: the mention-count spike threshold of the section
4.3 rule "mention count increased by more than threshold X". -/
def spikeThreshold : Nat := 10

/-- The mention count a coin had in the prior window's tallies (0 when the
coin is absent from them). -/
def priorMentions (prior : List CoinTally) (sym : String) : Nat :=
  match prior.find? (fun t => t.symbol = sym) with
  | some t => t.mentions
  | none => 0

/-- Modelled from the spec: the backend Alert Engine rule evaluation of
section 4.3, not under src/. It is a pure function of the current and prior
window tallies — per sections 4.3 and 9 the source keeps no record of
already-fired rule/window pairs, so duplicate emission across repeated
evaluations is the documented behaviour. The mention-spike rule fires when a
coin's mention count grew by more than the threshold; the importance ordinal
is proportional to the magnitude of the change, clamped into 1..5; the
is-read flag starts false. -/
def evaluateRules (now : Nat) (current prior : List CoinTally) : List Alert :=
  current.filterMap (fun t =>
    let before := priorMentions prior t.symbol
    if before + spikeThreshold < t.mentions then
      some { id := 0
             alert_type := "mention_spike"
             title := t.symbol ++ " mention spike"
             description := "Mentions of " ++ t.symbol ++ " spiked this window"
             importance := min 5 (max 1 ((t.mentions - before) / spikeThreshold))
             timestamp := now
             is_read := false }
    else none)

/-- Modelled from the spec: one Alert-Engine pass appends the alerts emitted
for the window to Storage (section 2 control flow: Alert Engine → Storage). -/
def runAlertEngine (st : List Alert) (now : Nat) (current prior : List CoinTally) :
    List Alert :=
  st ++ evaluateRules now current prior

/-! ## Alert acknowledge endpoint (backend, not under src/) -/

/-- Setting the is-read flag of the alert carrying the given id, leaving every
other alert unchanged. -/
def setRead (i : Nat) (a : Alert) : Alert :=
  if a.id = i then { a with is_read := true } else a

/-- Modelled from the spec: the backend handler of POST /api/alerts/{id}/read
(section 6), not under src/. When an alert with the id exists in Storage its
is-read flag is set to true and the updated Storage is returned; an unknown
id yields a 404 error and Storage is not modified. -/
def markAlertRead (st : List Alert) (i : Nat) : Except Nat (List Alert) :=
  if st.any (fun a => a.id = i) then .ok (st.map (setRead i))
  else .error 404

/-- Modelled from the spec: the GET /api/alerts read endpoint (section 6) —
the stored alerts ordered most recent first, truncated to the limit. -/
def alertRank (a b : Alert) : Prop := b.timestamp ≤ a.timestamp

instance : DecidableRel alertRank := fun a b => by
  unfold alertRank; infer_instance

def getAlerts (st : List Alert) (limit : Nat) : List Alert :=
  (List.insertionSort alertRank st).take limit

/-- Storages reachable from an empty store through Alert-Engine runs and
acknowledge operations — every alert that can appear behind GET /api/alerts. -/
inductive ReachableAlerts : List Alert → Prop where
  | nil : ReachableAlerts []
  | run (st : List Alert) (now : Nat) (current prior : List CoinTally) :
      ReachableAlerts st → ReachableAlerts (runAlertEngine st now current prior)
  | ack (st st2 : List Alert) (i : Nat) :
      ReachableAlerts st → markAlertRead st i = .ok st2 → ReachableAlerts st2

/-! ## Collector (backend, not under src/) -/

/-- Modelled from the spec: the Collector's synchronous scoring step (section
4.5) — a new post has its sentiment attached via section 4.1 before
persistence. -/
def scorePost (p : Post) : StoredPost :=
  ⟨p, sentimentLabel p.text, sentimentScore p.text⟩

/-- Modelled from the spec: the Collector's dedup-and-append step (section
4.5), not under src/. A raw post whose id is already stored is skipped;
otherwise it is scored and appended to Storage. -/
def collectOne (st : List StoredPost) (p : Post) : List StoredPost :=
  if st.any (fun q => q.post.id = p.id) then st else st ++ [scorePost p]

/-- The number of stored posts carrying a given id. -/
def countId (st : List StoredPost) (i : Nat) : Nat :=
  (st.filter (fun q => q.post.id = i)).length

/-! ## Chat path (src/static/app.js, handleSendMessage, lines 109-139) -/

/-- The outcome of the client's fetch of POST /api/chat: a 2xx response with
a parsed body, a non-2xx response, or a thrown network error. -/
inductive ChatFetchResult where
  | ok (response : String)
  | httpError
  | networkError
deriving DecidableEq, Repr

/-- A message appended to the chat panel, tagged with its sender class
("user" or "bot") as in addChatMessage. -/
structure ChatMessage where
  sender : String
  text : String
deriving DecidableEq, Repr

/-- The fallback text handleSendMessage shows when the fetch fails or the
response is not ok. -/
def chatErrorFallback : String :=
  "Sorry, I encountered an error processing your request. Please try again."

/-- The bot text handleSendMessage displays for each fetch outcome: the
server's response on success, the apologetic fallback otherwise. -/
def chatReply : ChatFetchResult → String
  | .ok r => r
  | .httpError => chatErrorFallback
  | .networkError => chatErrorFallback

/-- Whitespace trimming of the input string (the JavaScript `input.trim()`),
embedded as dropping whitespace characters from both ends of the character
list. -/
def trimString (s : String) : String :=
  String.mk
    (((s.data.dropWhile Char.isWhitespace).reverse.dropWhile
        Char.isWhitespace).reverse)

/-- Embedding of handleSendMessage in src/static/app.js: the trimmed input is
taken; an empty message sends nothing; otherwise the user message is appended
and then a bot message — the response on success, the fallback on any
failure. Returns the chat messages appended by the call. -/
def handleSendMessage (input : String) (result : ChatFetchResult) :
    List ChatMessage :=
  let message := trimString input
  if message = "" then []
  else [⟨"user", message⟩, ⟨"bot", chatReply result⟩]

/-! ## Refresh trigger coalescing (backend, not under src/) -/

/-- The scheduler state of the backend pipeline: whether a
Collector/Summarizer/Alert-Engine run is in flight, and how many runs have
been started. -/
structure ServerState where
  running : Bool
  runsStarted : Nat
deriving DecidableEq, Repr

/-- Modelled from the spec: the POST /api/refresh trigger of sections 5 and 6,
not under src/. Trigger arrivals are modelled as atomic events on the
scheduler state; a trigger arriving while a run is in flight is coalesced
(the state is unchanged, no second run starts), otherwise a new run starts. -/
def triggerRefresh (s : ServerState) : ServerState :=
  if s.running then s else { running := true, runsStarted := s.runsStarted + 1 }

/-- Modelled from the spec: completion of an in-flight pipeline run. -/
def finishRun (s : ServerState) : ServerState :=
  { s with running := false }

/-! ## formatDate (src/static/app.js, lines 383-413) -/

/-- Embedding of formatDate in src/static/app.js. JavaScript Date parsing and
toLocaleDateString are abstracted as the parameters `parse` (epoch
milliseconds of a parseable string, none when `new Date(s)` is invalid) and
`localeDate`; `now` is the current epoch milliseconds; the absent/null input
is `none`. `Math.floor` of a possibly-negative quotient is `Int.fdiv`. -/
def formatDate (parse : String → Option Int) (localeDate : Int → String)
    (now : Int) (dateString : Option String) : String :=
  match dateString with
  | none => ""
  | some s =>
    if s = "" then ""
    else
      match parse s with
      | none => s
      | some t =>
        let diffMs := now - t
        let diffSec := diffMs.fdiv 1000
        let diffMin := diffSec.fdiv 60
        let diffHour := diffMin.fdiv 60
        let diffDay := diffHour.fdiv 24
        if diffSec < 60 then "just now"
        else if diffMin < 60 then toString diffMin ++ "m ago"
        else if diffHour < 24 then toString diffHour ++ "h ago"
        else if diffDay < 7 then toString diffDay ++ "d ago"
        else localeDate t

/-! ## Claim theorems -/

/-- C1: For every post text, the sentiment label is determined from the
numeric score by the fixed threshold policy: a score at least +0.05 yields
bullish, a score at most -0.05 yields bearish, and any score strictly between
yields neutral — both in the Summary.js trending classification and in the
modelled scorer's label. -/
theorem c1_threshold_policy (s : ℚ) (text : String) :
    (5 / 100 ≤ s → trendClassification s = "Bullish") ∧
    (s ≤ -(5 / 100) → trendClassification s = "Bearish") ∧
    (-(5 / 100) < s → s < 5 / 100 → trendClassification s = "Neutral") ∧
    (5 / 100 ≤ sentimentScore text → sentimentLabel text = "bullish") ∧
    (sentimentScore text ≤ -(5 / 100) → sentimentLabel text = "bearish") ∧
    (-(5 / 100) < sentimentScore text → sentimentScore text < 5 / 100 →
      sentimentLabel text = "neutral") := by
  unfold trendClassification sentimentLabel
  refine ⟨fun h => ?_, fun h => ?_, fun h1 h2 => ?_,
    fun h => ?_, fun h => ?_, fun h1 h2 => ?_⟩ <;>
    split_ifs <;> first | rfl | linarith

/-- The scorer's defining equation, for rewriting at concrete texts. -/
lemma sentimentScore_eval (text : String) :
    sentimentScore text =
      if (wordsOf text).length = 0 then 0
      else (((wordsOf text).map wordPolarity).sum : ℚ) /
        ((wordsOf text).length : ℚ) := rfl

/-- Witness for C1 at concrete scores and texts. -/
theorem c1_threshold_policy_witness :
    trendClassification 1 = "Bullish" ∧
    trendClassification (-1) = "Bearish" ∧
    trendClassification 0 = "Neutral" ∧
    sentimentLabel "moon" = "bullish" ∧
    sentimentLabel "crash" = "bearish" ∧
    sentimentLabel "hello" = "neutral" :=
  ⟨(c1_threshold_policy 1 "moon").1 (by norm_num),
   (c1_threshold_policy (-1) "moon").2.1 (by norm_num),
   (c1_threshold_policy 0 "moon").2.2.1 (by norm_num) (by norm_num),
   (c1_threshold_policy 0 "moon").2.2.2.1
     (by norm_num [sentimentScore_eval, show wordsOf "moon" = ["moon"] from by decide,
       show wordPolarity "moon" = 1 from by decide]),
   (c1_threshold_policy 0 "crash").2.2.2.2.1
     (by norm_num [sentimentScore_eval, show wordsOf "crash" = ["crash"] from by decide,
       show wordPolarity "crash" = -1 from by decide]),
   (c1_threshold_policy 0 "hello").2.2.2.2.2
     (by norm_num [sentimentScore_eval, show wordsOf "hello" = ["hello"] from by decide,
       show wordPolarity "hello" = 0 from by decide])
     (by norm_num [sentimentScore_eval, show wordsOf "hello" = ["hello"] from by decide,
       show wordPolarity "hello" = 0 from by decide])⟩

/-- C2: For every input text the modelled Sentiment Scorer returns a score
within [-1, 1], and for empty input it returns score 0 with label neutral. -/
theorem c2_score_range_empty_neutral (text : String) :
    (-1 ≤ sentimentScore text ∧ sentimentScore text ≤ 1) ∧
    (text = "" → sentimentScore text = 0 ∧ sentimentLabel text = "neutral") := by
  refine ⟨sentimentScore_bounds text, fun h => ?_⟩
  subst h
  have h0 : sentimentScore "" = 0 := by decide
  refine ⟨h0, ?_⟩
  unfold sentimentLabel
  rw [h0]
  norm_num

/-- Witness for C2 at the empty text. -/
theorem c2_score_range_empty_neutral_witness :
    (-1 ≤ sentimentScore "" ∧ sentimentScore "" ≤ 1) ∧
    (sentimentScore "" = 0 ∧ sentimentLabel "" = "neutral") :=
  ⟨(c2_score_range_empty_neutral "").1, (c2_score_range_empty_neutral "").2 rfl⟩

/-- C5: For every post window and reference coin list, the extractor output
contains an entry only for coins with at least one mention (zero-mention
coins are omitted), and the top-N trending ranking is ordered by higher
mention count first with ties broken alphabetically by symbol; the top-N
entries all come from the extractor output. -/
theorem c5_extractor_output (coins : List String) (posts : List Post) (n : Nat) :
    (∀ t ∈ extractTallies coins posts,
      1 ≤ t.mentions ∧ posts.any (fun p => mentionsCoin p t.symbol) = true) ∧
    List.Sorted trendRank (topTrending n coins posts) ∧
    (∀ t ∈ topTrending n coins posts, t ∈ extractTallies coins posts) := by
  refine ⟨?_, ?_, ?_⟩
  · intro t ht
    unfold extractTallies at ht
    rw [List.mem_filterMap] at ht
    obtain ⟨sym, _, hf⟩ := ht
    by_cases hz : (posts.filter (fun p => mentionsCoin p sym)).length = 0
    · simp [hz] at hf
    · rw [if_neg hz] at hf
      injection hf with hf
      subst hf
      constructor
      · exact Nat.one_le_iff_ne_zero.mpr hz
      · rw [List.any_eq_true]
        have hne : posts.filter (fun p => mentionsCoin p sym) ≠ [] := by
          intro hnil
          exact hz (by rw [hnil]; rfl)
        obtain ⟨p, hp⟩ := List.exists_mem_of_ne_nil _ hne
        exact ⟨p, (List.mem_filter.mp hp).1, (List.mem_filter.mp hp).2⟩
  · exact ((List.sorted_insertionSort trendRank
      (extractTallies coins posts)).sublist (List.take_sublist n _))
  · intro t ht
    exact (List.perm_insertionSort trendRank (extractTallies coins posts)).subset
      ((List.take_sublist n _).subset ht)

/-- The section 8 end-to-end scenario post mentioning BTC. -/
def demoPost : Post := ⟨1, "sat", "sat", "BTC", 0, 2, 3⟩

/-- The extractor entry produced for the demo post. -/
def demoTally : CoinTally := ⟨"BTC", 1, sentimentScore "BTC"⟩

/-- Witness for C5 on a single-post window with reference list [BTC, ETH]. -/
theorem c5_extractor_output_witness :
    (1 ≤ demoTally.mentions ∧
      [demoPost].any (fun p => mentionsCoin p demoTally.symbol) = true) ∧
    demoTally ∈ extractTallies ["BTC", "ETH"] [demoPost] :=
  ⟨(c5_extractor_output ["BTC", "ETH"] [demoPost] 1).1 demoTally
      (by simp [extractTallies, demoTally,
        show mentionsCoin demoPost "BTC" = true from by decide,
        show mentionsCoin demoPost "ETH" = false from by decide,
        show demoPost.text = "BTC" from rfl]),
   (c5_extractor_output ["BTC", "ETH"] [demoPost] 1).2.2 demoTally
      (by simp [topTrending, extractTallies, demoTally,
        List.insertionSort, List.orderedInsert,
        show mentionsCoin demoPost "BTC" = true from by decide,
        show mentionsCoin demoPost "ETH" = false from by decide,
        show demoPost.text = "BTC" from rfl])⟩

/-- A window in which BTC's mention count spiked from nothing to 20. -/
def demoCurrent : List CoinTally := [⟨"BTC", 20, 0⟩]

/-- C3 counterexample: on a concrete window the modelled engine emits one
alert on the first evaluation and, re-evaluating the same window with no new
data, emits it again — the second run produces an additional Alert record,
refuting the claim as stated. -/
theorem c3_counterexample_rerun_adds_alerts :
    (runAlertEngine [] 0 demoCurrent []).length = 1 ∧
    (runAlertEngine (runAlertEngine [] 0 demoCurrent []) 0 demoCurrent []).length
      = 2 := by
  constructor <;> rfl

/-- C3 amended: the modelled Alert Engine is a pure function of the window
data with no record of already-fired rule/window pairs, so re-evaluating the
same window twice without new data appends the same alerts a second time
(duplicate emission, the documented known limitation of section 9). -/
theorem c3_rerun_emits_duplicates (st : List Alert) (now : Nat)
    (current prior : List CoinTally) :
    runAlertEngine (runAlertEngine st now current prior) now current prior =
      st ++ (evaluateRules now current prior ++ evaluateRules now current prior) := by
  simp [runAlertEngine]

/-- Every alert the modelled engine emits has importance inside 1..5 and its
is-read flag false. -/
lemma evaluateRules_invariant {now : Nat} {current prior : List CoinTally}
    {a : Alert} (h : a ∈ evaluateRules now current prior) :
    (1 ≤ a.importance ∧ a.importance ≤ 5) ∧ a.is_read = false := by
  unfold evaluateRules at h
  rw [List.mem_filterMap] at h
  obtain ⟨t, _, hf⟩ := h
  by_cases hc : priorMentions prior t.symbol + spikeThreshold < t.mentions
  · rw [if_pos hc] at hf
    injection hf with hf
    subst hf
    refine ⟨⟨le_min (by norm_num) (Nat.le_max_left 1 _), min_le_left 5 _⟩, rfl⟩
  · rw [if_neg hc] at hf
    exact absurd hf (by simp)

/-- Importance bounds hold for every alert of every reachable storage. -/
lemma reachable_importance {st : List Alert} (h : ReachableAlerts st) :
    ∀ a ∈ st, 1 ≤ a.importance ∧ a.importance ≤ 5 := by
  induction h with
  | nil => simp
  | run st now current prior _ ih =>
    intro a ha
    rw [runAlertEngine, List.mem_append] at ha
    rcases ha with ha | ha
    · exact ih a ha
    · exact (evaluateRules_invariant ha).1
  | ack st st2 i _ heq ih =>
    intro a ha
    unfold markAlertRead at heq
    split at heq
    · injection heq with heq
      subst heq
      rw [List.mem_map] at ha
      obtain ⟨b, hb, rfl⟩ := ha
      have hball := ih b hb
      unfold setRead
      split <;> simpa using hball
    · cases heq

/-- C9: every Alert the modelled engine ever creates has an importance
ordinal within 1..5 and its is-read flag false at creation; and every alert
reachable through GET /api/alerts (on any storage produced by engine runs and
acknowledge operations) has importance within 1..5. -/
theorem c9_alert_invariants :
    (∀ (now : Nat) (current prior : List CoinTally) (a : Alert),
      a ∈ evaluateRules now current prior →
        (1 ≤ a.importance ∧ a.importance ≤ 5) ∧ a.is_read = false) ∧
    (∀ st : List Alert, ReachableAlerts st → ∀ (n : Nat) (a : Alert),
      a ∈ getAlerts st n → 1 ≤ a.importance ∧ a.importance ≤ 5) := by
  constructor
  · intro _ _ _ _ h
    exact evaluateRules_invariant h
  · intro st hst n a ha
    refine reachable_importance hst a ?_
    exact (List.perm_insertionSort alertRank st).subset
      ((List.take_sublist n _).subset ha)

/-- The alert emitted for the demo spike window. -/
def demoAlert : Alert :=
  ⟨0, "mention_spike", "BTC mention spike",
    "Mentions of BTC spiked this window", 2, 0, false⟩

/-- Witness for C9 at the demo spike window and the storage reached by one
engine run over it. -/
theorem c9_alert_invariants_witness :
    ((1 ≤ demoAlert.importance ∧ demoAlert.importance ≤ 5) ∧
      demoAlert.is_read = false) ∧
    (1 ≤ demoAlert.importance ∧ demoAlert.importance ≤ 5) :=
  ⟨c9_alert_invariants.1 0 demoCurrent [] demoAlert (by decide),
   c9_alert_invariants.2 (runAlertEngine [] 0 demoCurrent [])
     (ReachableAlerts.run [] 0 demoCurrent [] ReachableAlerts.nil) 1 demoAlert
     (by decide)⟩

/-- setRead leaves the alert id unchanged. -/
lemma setRead_id (i : Nat) (a : Alert) : (setRead i a).id = a.id := by
  unfold setRead
  split <;> rfl

/-- setRead is idempotent on each alert. -/
lemma setRead_setRead (i : Nat) (a : Alert) :
    setRead i (setRead i a) = setRead i a := by
  unfold setRead
  by_cases h : a.id = i
  · simp [h]
  · simp [h]

/-- C4: for a stored alert id, the modelled POST /api/alerts/id/read handler
succeeds and sets that alert's is-read flag to true; a second call on the
resulting storage also succeeds and leaves it unchanged (idempotent); for an
id not present it returns a 404 error (and hence modifies nothing). -/
theorem c4_mark_alert_read (st : List Alert) (i : Nat) :
    (st.any (fun a => a.id = i) = true →
      markAlertRead st i = .ok (st.map (setRead i)) ∧
      (∀ a ∈ st.map (setRead i), a.id = i → a.is_read = true) ∧
      markAlertRead (st.map (setRead i)) i = .ok (st.map (setRead i))) ∧
    (st.any (fun a => a.id = i) = false →
      markAlertRead st i = .error 404) := by
  constructor
  · intro h
    refine ⟨by simp [markAlertRead, h], ?_, ?_⟩
    · intro a ha hid
      rw [List.mem_map] at ha
      obtain ⟨b, _, rfl⟩ := ha
      unfold setRead at hid ⊢
      by_cases hb : b.id = i
      · simp [hb]
      · rw [if_neg hb] at hid
        exact absurd hid hb
    · have hany : (st.map (setRead i)).any (fun a => a.id = i) = true := by
        rw [List.any_eq_true] at h ⊢
        obtain ⟨b, hb, hid⟩ := h
        exact ⟨setRead i b, List.mem_map_of_mem _ hb,
          by simpa [setRead_id] using hid⟩
      rw [markAlertRead, if_pos hany, List.map_map]
      congr 1
      refine List.map_congr_left (fun b _ => ?_)
      exact setRead_setRead i b
  · intro h
    simp [markAlertRead, h]

/-- A one-alert storage for exercising the acknowledge endpoint. -/
def demoStore : List Alert := [⟨7, "spike", "t", "d", 3, 0, false⟩]

/-- Witness for C4: acknowledging alert 7 succeeds, sets its is-read flag,
and is idempotent; acknowledging the unknown id 8 yields 404. -/
theorem c4_mark_alert_read_witness :
    markAlertRead demoStore 7 = .ok (demoStore.map (setRead 7)) ∧
    (setRead 7 ⟨7, "spike", "t", "d", 3, 0, false⟩).is_read = true ∧
    markAlertRead (demoStore.map (setRead 7)) 7 = .ok (demoStore.map (setRead 7)) ∧
    markAlertRead demoStore 8 = .error 404 :=
  ⟨((c4_mark_alert_read demoStore 7).1 (by decide)).1,
   ((c4_mark_alert_read demoStore 7).1 (by decide)).2.1
     (setRead 7 ⟨7, "spike", "t", "d", 3, 0, false⟩) (by decide) (by decide),
   ((c4_mark_alert_read demoStore 7).1 (by decide)).2.2,
   (c4_mark_alert_read demoStore 8).2 (by decide)⟩

/-- C6: the modelled Collector dedup is idempotent by post id — feeding the
same raw post twice changes nothing the second time, and starting from a
storage without that id it results in exactly one stored post with that id. -/
theorem c6_collector_dedup (st : List StoredPost) (p : Post) :
    collectOne (collectOne st p) p = collectOne st p ∧
    (countId st p.id = 0 →
      countId (collectOne (collectOne st p) p) p.id = 1) := by
  by_cases h : st.any (fun q => q.post.id = p.id) = true
  · have hcoll : collectOne st p = st := by simp [collectOne, h]
    constructor
    · rw [hcoll, hcoll]
    · intro hzero
      exfalso
      rw [List.any_eq_true] at h
      obtain ⟨q, hq, hid⟩ := h
      have : q ∈ st.filter (fun q => q.post.id = p.id) :=
        List.mem_filter.mpr ⟨hq, hid⟩
      have : st.filter (fun q => q.post.id = p.id) ≠ [] :=
        List.ne_nil_of_mem this
      exact this (List.length_eq_zero.mp hzero)
  · rw [Bool.not_eq_true] at h
    have hcoll : collectOne st p = st ++ [scorePost p] := by
      simp [collectOne, h]
    have hany2 : (st ++ [scorePost p]).any (fun q => q.post.id = p.id) = true := by
      rw [List.any_append]
      simp [scorePost]
    have hcoll2 : collectOne (st ++ [scorePost p]) p = st ++ [scorePost p] := by
      simp [collectOne, hany2]
    constructor
    · rw [hcoll, hcoll2]
    · intro hzero
      rw [hcoll, hcoll2]
      unfold countId at hzero ⊢
      rw [List.filter_append, List.length_append, hzero]
      simp [scorePost]

/-- Witness for C6: feeding the demo post twice into an empty storage stores
it exactly once. -/
theorem c6_collector_dedup_witness :
    collectOne (collectOne [] demoPost) demoPost = collectOne [] demoPost ∧
    countId (collectOne (collectOne [] demoPost) demoPost) demoPost.id = 1 :=
  ⟨(c6_collector_dedup [] demoPost).1,
   (c6_collector_dedup [] demoPost).2 (by decide)⟩

/-- C7: for every non-empty chat message and every fetch outcome, the client
chat path appends the user message and exactly one well-formed bot response;
on any failure (non-ok response or thrown fetch) the bot response is the
apologetic fallback — no error surfaces to the user. -/
theorem c7_chat_always_responds (input : String) (result : ChatFetchResult)
    (h : trimString input ≠ "") :
    handleSendMessage input result =
      [⟨"user", trimString input⟩, ⟨"bot", chatReply result⟩] ∧
    (result = .httpError ∨ result = .networkError →
      chatReply result = chatErrorFallback) := by
  constructor
  · simp [handleSendMessage, h]
  · rintro (rfl | rfl) <;> rfl

/-- Witness for C7 at the message "hi" with a thrown fetch. -/
theorem c7_chat_always_responds_witness :
    handleSendMessage "hi" ChatFetchResult.networkError =
      [⟨"user", trimString "hi"⟩,
       ⟨"bot", chatReply ChatFetchResult.networkError⟩] ∧
    chatReply ChatFetchResult.networkError = chatErrorFallback :=
  ⟨(c7_chat_always_responds "hi" ChatFetchResult.networkError (by decide)).1,
   (c7_chat_always_responds "hi" ChatFetchResult.networkError (by decide)).2
     (Or.inr rfl)⟩

/-- C8: a refresh trigger arriving while a pipeline run is in flight leaves
the scheduler state unchanged (coalesced, no second run), and from an idle
state two triggers result in exactly one new pipeline execution. -/
theorem c8_refresh_coalescing (s : ServerState) :
    (s.running = true → triggerRefresh s = s) ∧
    (s.running = false →
      (triggerRefresh (triggerRefresh s)).runsStarted = s.runsStarted + 1 ∧
      triggerRefresh (triggerRefresh s) = triggerRefresh s) := by
  constructor
  · intro h
    simp [triggerRefresh, h]
  · intro h
    simp [triggerRefresh, h]

/-- Witness for C8 at a busy and an idle scheduler state. -/
theorem c8_refresh_coalescing_witness :
    triggerRefresh ⟨true, 5⟩ = ⟨true, 5⟩ ∧
    (triggerRefresh (triggerRefresh ⟨false, 0⟩)).runsStarted = 0 + 1 ∧
    triggerRefresh (triggerRefresh ⟨false, 0⟩) = triggerRefresh ⟨false, 0⟩ :=
  ⟨(c8_refresh_coalescing ⟨true, 5⟩).1 rfl,
   ((c8_refresh_coalescing ⟨false, 0⟩).2 rfl).1,
   ((c8_refresh_coalescing ⟨false, 0⟩).2 rfl).2⟩

/-- C10: formatDate is total and never throws: a null or empty input yields
the empty string, a string the Date constructor cannot parse is returned
unchanged, and a parseable date yields either a relative-time string ("just
now", minutes/hours/days ago) or the locale date string for older dates. -/
theorem c10_formatDate_total (parse : String → Option Int)
    (localeDate : Int → String) (now : Int) :
    formatDate parse localeDate now none = "" ∧
    formatDate parse localeDate now (some "") = "" ∧
    (∀ s : String, s ≠ "" → parse s = none →
      formatDate parse localeDate now (some s) = s) ∧
    (∀ (s : String) (t : Int), s ≠ "" → parse s = some t →
      formatDate parse localeDate now (some s) = "just now" ∨
      formatDate parse localeDate now (some s) =
        toString (((now - t).fdiv 1000).fdiv 60) ++ "m ago" ∨
      formatDate parse localeDate now (some s) =
        toString ((((now - t).fdiv 1000).fdiv 60).fdiv 60) ++ "h ago" ∨
      formatDate parse localeDate now (some s) =
        toString (((((now - t).fdiv 1000).fdiv 60).fdiv 60).fdiv 24) ++ "d ago" ∨
      formatDate parse localeDate now (some s) = localeDate t) := by
  refine ⟨rfl, by simp [formatDate], ?_, ?_⟩
  · intro s hs hp
    simp [formatDate, hs, hp]
  · intro s t hs hp
    simp only [formatDate, if_neg hs, hp]
    split_ifs <;> simp

/-- A concrete parser and locale renderer for exercising formatDate: the
fixed string parses to epoch 0, everything else is unparseable. -/
def demoParse (s : String) : Option Int :=
  if s = "1970-01-01T00:00:00Z" then some 0 else none

def demoLocale (_ : Int) : String := "1/1/1970"

/-- Witness for C10 at concrete inputs: absent, empty, unparseable, and a
parseable date observed moments later. -/
theorem c10_formatDate_total_witness :
    formatDate demoParse demoLocale 0 none = "" ∧
    formatDate demoParse demoLocale 0 (some "") = "" ∧
    formatDate demoParse demoLocale 0 (some "garbage") = "garbage" ∧
    (formatDate demoParse demoLocale 0 (some "1970-01-01T00:00:00Z") = "just now" ∨
      formatDate demoParse demoLocale 0 (some "1970-01-01T00:00:00Z") =
        toString (((0 - 0 : Int).fdiv 1000).fdiv 60) ++ "m ago" ∨
      formatDate demoParse demoLocale 0 (some "1970-01-01T00:00:00Z") =
        toString ((((0 - 0 : Int).fdiv 1000).fdiv 60).fdiv 60) ++ "h ago" ∨
      formatDate demoParse demoLocale 0 (some "1970-01-01T00:00:00Z") =
        toString (((((0 - 0 : Int).fdiv 1000).fdiv 60).fdiv 60).fdiv 24) ++ "d ago" ∨
      formatDate demoParse demoLocale 0 (some "1970-01-01T00:00:00Z") =
        demoLocale 0) :=
  ⟨(c10_formatDate_total demoParse demoLocale 0).1,
   (c10_formatDate_total demoParse demoLocale 0).2.1,
   (c10_formatDate_total demoParse demoLocale 0).2.2.1 "garbage"
     (by decide) (by decide),
   (c10_formatDate_total demoParse demoLocale 0).2.2.2 "1970-01-01T00:00:00Z" 0
     (by decide) (by decide)⟩

end XTC
